import Mathlib

/- Shallow embedding of the CyberAudit assessment pipeline
(repository Cyberaudit_project, Python sources under src/Cyberaudit).

Conventions of the embedding:
* Python dicts that flow between the scanners and the scorer are modelled as
  structures whose fields are `Option`-typed: `none` models an absent key,
  mirroring every `.get(key)` / `.get(key, default)` access in the source.
* Python truthiness (`if value:`) is modelled by the `pyTruthy…` helpers.
* Python numbers are modelled exactly: `int` as `ℤ`, real arithmetic
  (float weights 0.25 … 0.10, the `1.1`/`0.7` multipliers) as `ℚ`;
  `int(x)` truncation toward zero is `pyint`.  Where the difference between
  exact arithmetic and the source's binary64 floats is itself at issue,
  a bit-exact IEEE-754 binary64 model (`F64` below) is used alongside.
* Network and regex effects are modelled as explicit oracles (`Surface`,
  probe outcome functions) passed as arguments, so every definition is a
  pure, executable function of the source code's control flow.
-/

/- Python truthiness of an optional string value: `None` and `''` are falsy. -/
def pyTruthyStr (o : Option String) : Bool :=
  match o with
  | none => false
  | some s => !s.isEmpty

/- Python truthiness of an optional bool value: `None` is falsy. -/
def pyTruthyBool (o : Option Bool) : Bool :=
  match o with
  | none => false
  | some b => b

/- Python truthiness of an optional list value: `None` and `[]` are falsy. -/
def pyTruthyList {α : Type} (o : Option (List α)) : Bool :=
  match o with
  | none => false
  | some l => !l.isEmpty

/- Python `int(q)` on a real value: truncation toward zero. -/
def pyint (q : ℚ) : ℤ :=
  if 0 ≤ q then ⌊q⌋ else ⌈q⌉

/- Character-list prefix test (structural, so it evaluates by reduction). -/
def listStartsWith : List Char → List Char → Bool
  | [], _ => true
  | _ :: _, [] => false
  | a :: as, b :: bs => a = b && listStartsWith as bs

/- Character-list substring test: the needle starts at some position of the
hay (an empty needle always matches). -/
def listContainsSub (needle : List Char) : List Char → Bool
  | [] => needle.isEmpty
  | b :: bs => listStartsWith needle (b :: bs) || listContainsSub needle bs

/- Python substring test `needle in hay` (the empty needle is in every string). -/
def pySubstr (needle hay : String) : Bool :=
  listContainsSub needle.toList hay.toList

/- Python `s.lower()` (ASCII case folding, character by character). -/
def pyLower (s : String) : String :=
  String.mk (s.toList.map Char.toLower)

/- The five scan kinds handled by `main.start_scan` / `SecurityScorer`. -/
inductive ScanKind : Type
  | ssl
  | ports
  | headers
  | cms
  | ddos
deriving DecidableEq, Fintype, Repr

/- The string key used for each scan kind in the Python dicts. -/
def ScanKind.pyName : ScanKind → String
  | .ssl => "ssl"
  | .ports => "ports"
  | .headers => "headers"
  | .cms => "cms"
  | .ddos => "ddos"

/- The fixed enumeration order of keys in `main.start_scan`'s result dict
and in `SecurityScorer.self.weights`. -/
def allKinds : List ScanKind := [.ssl, .ports, .headers, .cms, .ddos]

/- Model of `ssl_result.get('certificate', {})` sub-dict, fields read by the scorer
and by `SSLScanner._calculate_ssl_score`. -/
structure CertificateDict where
  expires_soon : Option Bool := none
  expired : Option Bool := none
  self_signed : Option Bool := none
  key_size : Option ℤ := none
  error : Option String := none
deriving DecidableEq, Repr

/- Model of `ssl_result.get('protocols', {})` sub-dict. -/
structure ProtocolsDict where
  weak_protocols : Option (List String) := none
  modern_protocols : Option (List String) := none
  error : Option String := none
deriving DecidableEq, Repr

/- Model of `cipher_info` dict produced by `SSLScanner._check_ciphers`. -/
structure CipherDict where
  strong_cipher : Option Bool := none
  bits : Option ℤ := none
  weak_ciphers : Option (List String) := none
  error : Option String := none
deriving DecidableEq, Repr

/- One entry of `port_result.get('dangerous_ports', [])`. -/
structure PortInfoDict where
  port : Option ℤ := none
  service : Option String := none
  risk : Option String := none
deriving DecidableEq, Repr

/- One value of `security_headers.get('missing', {})`. -/
structure MissingHeaderInfo where
  name : Option String := none
deriving DecidableEq, Repr

/- Model of `header_result.get('security_headers', {})` sub-dict; `missing` is a dict
keyed by lower-cased header name, kept as an association list. -/
structure SecurityHeadersDict where
  missing : Option (List (String × MissingHeaderInfo)) := none
deriving DecidableEq, Repr

/- Model of `header_result.get('dangerous_headers', {})` sub-dict; `found` is a dict
header-name → value, only its truthiness is read. -/
structure DangerousHeadersDict where
  found : Option (List (String × String)) := none
deriving DecidableEq, Repr

/- Model of `cms_result.get('cms', {})` sub-dict (output of `CMSScanner._detect_cms`). -/
structure CmsDict where
  detected : Option Bool := none
  type : Option String := none
  name : Option String := none
  version : Option String := none
  confidence : Option ℤ := none
  error : Option String := none
deriving DecidableEq, Repr

/- One vulnerability record built by `CMSScanner._check_vulnerabilities`. -/
structure Vulnerability where
  id : String
  description : String
  severity : String
  affected_version : String
deriving DecidableEq, Repr

/- Model of `cms_result.get('vulnerabilities', {})` sub-dict. -/
structure VulnsDict where
  found : Option (List Vulnerability) := none
  count : Option ℤ := none
  risk_level : Option String := none
deriving DecidableEq, Repr

/- One entry of `exposed_files['found']` as built by
`CMSScanner._check_exposed_files` (`cms_scanner.py` lines 404-409). -/
structure ExposedFileInfo where
  path : String := ""
  url : String := ""
  size : ℤ := 0
  risk : String := "low"
deriving DecidableEq, Repr

/- Model of `cms_result.get('exposed_files', {})` sub-dict. -/
structure ExposedDict where
  found : Option (List ExposedFileInfo) := none
deriving DecidableEq, Repr

/- Model of `cms_result.get('plugins', {})` sub-dict. -/
structure PluginsDict where
  outdated : Option (List String) := none
  vulnerable : Option (List String) := none
deriving DecidableEq, Repr

/- Model of `ddos_result.get('cdn_detection', {})` sub-dict. -/
structure CdnDict where
  detected : Option Bool := none
  protection_level : Option String := none
deriving DecidableEq, Repr

/- Model of `ddos_result.get('rate_limiting', {})` sub-dict. -/
structure RateLimitDict where
  detected : Option Bool := none
deriving DecidableEq, Repr

/- Model of `ddos_result.get('dns_info', {})` sub-dict. -/
structure DnsDict where
  single_ip : Option Bool := none
deriving DecidableEq, Repr

/- One per-probe result dict as consumed by `SecurityScorer`: the union of
all keys the scorer reads; a `none` field models an absent key.  A probe
failure recorded by `start_scan` is `{error := some reason}` with every
other field absent, mirroring `scan_results[scan_type] = {"error": str(e)}`. -/
structure ResultDict where
  error : Option String := none
  score : Option ℤ := none
  status : Option String := none
  issues : Option (List String) := none
  total_checks : Option ℤ := none
  passed_checks : Option ℤ := none
  protocol : Option String := none
  certificate : Option CertificateDict := none
  protocols : Option ProtocolsDict := none
  dangerous_ports : Option (List PortInfoDict) := none
  security_headers : Option SecurityHeadersDict := none
  dangerous_headers : Option DangerousHeadersDict := none
  cms : Option CmsDict := none
  vulnerabilities : Option VulnsDict := none
  exposed_files : Option ExposedDict := none
  plugins : Option PluginsDict := none
  cdn_detection : Option CdnDict := none
  rate_limiting : Option RateLimitDict := none
  dns_info : Option DnsDict := none
deriving DecidableEq, Repr

/- The `scan_results` dict keyed by scan kind; `none` models an absent key. -/
def ScanResults : Type := ScanKind → Option ResultDict

/- The translations dict from `utils.i18n.get_translations`; the scorer only
ever reads the `default_recommendation` key. -/
structure Translations where
  default_recommendation : Option String := none
deriving DecidableEq, Repr

/- Model of `SecurityScorer.self.weights`: fixed category weights, in dict insertion
order (`scoring.py` lines 13-19). -/
def weights : List (ScanKind × ℚ) :=
  [(.ssl, 0.25), (.ports, 0.20), (.headers, 0.25), (.cms, 0.20), (.ddos, 0.10)]

/- One step of the accumulation loop in
`SecurityScorer.calculate_total_score` (`scoring.py` lines 35-39):
`(total_score, total_weight)` is extended by `(score*weight, weight)` when
the scan type is present and its result carries no truthy `'error'` key. -/
def totalScoreStep (sr : ScanResults) (a : ℚ × ℚ) (kw : ScanKind × ℚ) : ℚ × ℚ :=
  match sr kw.1 with
  | some r =>
      if pyTruthyStr r.error then a
      else (a.1 + (r.score.getD 0 : ℤ) * kw.2, a.2 + kw.2)
  | none => a

/- Model of `SecurityScorer.calculate_total_score` (`scoring.py` lines 29-50): weighted
sum over present, non-error results, renormalized by the accumulated weight,
truncated by `int(...)` and clamped by `max(0, min(final_score, 100))`.
The `try/except` wrapper of the source is unreachable in this typed model. -/
def calculate_total_score (sr : ScanResults) : ℤ :=
  let acc := weights.foldl (totalScoreStep sr) (0, 0)
  let final_score : ℤ := if 0 < acc.2 then pyint (acc.1 / acc.2) else 0
  max 0 (min final_score 100)

/- Model of `SecurityScorer.self.security_levels` pre-sorted by `min_score` descending,
exactly the order produced by `sorted(..., key=..., reverse=True)` in
`get_security_summary` (`scoring.py` lines 274-275). -/
def security_levels_sorted : List (String × ℤ) :=
  [("excellent", 90), ("good", 80), ("warning", 60), ("critical", 0)]

/- The `description` attached to each security level in
`SecurityScorer.self.security_levels` (`scoring.py` lines 22-27). -/
def security_level_description (level : String) : String :=
  if level = "excellent" then "Отличная безопасность"
  else if level = "good" then "Хорошая безопасность"
  else if level = "warning" then "Требуется внимание"
  else "Критические проблемы"

/- The security-level loop of `SecurityScorer.get_security_summary`
(`scoring.py` lines 272-278): first level (highest threshold first) whose
`min_score` the total score reaches; default `'critical'`. -/
def security_level_of (total_score : ℤ) : String :=
  match security_levels_sorted.find? (fun p => decide (p.2 ≤ total_score)) with
  | some p => p.1
  | none => "critical"

/- The statistics block of `SecurityScorer.get_security_summary`
(`scoring.py` lines 281-294). -/
structure SecurityStats where
  total_checks : ℤ
  passed_checks : ℤ
  failed_checks : ℤ
  issues_found : ℤ
deriving DecidableEq, Repr

/- Return value of `SecurityScorer.get_security_summary`. -/
structure SecuritySummary where
  security_level : String
  description : String
  total_score : ℤ
  statistics : SecurityStats
  certificate_eligible : Bool
deriving DecidableEq, Repr

/- Model of `SecurityScorer.get_security_summary` (`scoring.py` lines 270-302).
Every value of the model's `scan_results` is a dict, so the
`isinstance(result, dict)` test of the source is always true here. -/
def get_security_summary (sr : ScanResults) (total_score : ℤ) : SecuritySummary :=
  let security_level := security_level_of total_score
  let acc := allKinds.foldl
    (fun (a : ℤ × ℤ × ℤ) k =>
      match sr k with
      | some r =>
          if pyTruthyStr r.error then a
          else (a.1 + r.total_checks.getD 0, a.2.1 + r.passed_checks.getD 0,
                a.2.2 + ((r.issues.getD []).length : ℤ))
      | none => a) (0, 0, 0)
  { security_level := security_level
    description := security_level_description security_level
    total_score := total_score
    statistics :=
      { total_checks := acc.1
        passed_checks := acc.2.1
        failed_checks := acc.1 - acc.2.1
        issues_found := acc.2.2 }
    certificate_eligible := decide (80 ≤ total_score) }

/- Model of `SSLScanner._calculate_ssl_score` (`ssl_scanner.py` lines 299-346):
starts at 20 base points, adds certificate (30), protocol (30) and cipher
(20) points, capped by `min(score, 100)`.  The unused `ssl_info` argument of
the source is omitted (the body never reads it). -/
def calculate_ssl_score (cert : CertificateDict) (proto : ProtocolsDict)
    (cipher : CipherDict) : ℤ :=
  let score : ℤ := 0 + 20
  let score := score +
    (if pyTruthyStr cert.error then 0
     else (if pyTruthyBool cert.expired then 0 else 10)
        + (if pyTruthyBool cert.self_signed then 0 else 10)
        + (if 2048 ≤ cert.key_size.getD 0 then 5 else 0)
        + (if pyTruthyBool cert.expires_soon then 0 else 5))
  let score := score +
    (if pyTruthyStr proto.error then 0
     else
       let modern := proto.modern_protocols.getD []
       let weak := proto.weak_protocols.getD []
       (if "TLSv1.3" ∈ modern then 15
        else if "TLSv1.2" ∈ modern then 10 else 0)
       + (if weak.isEmpty then 15
          else if weak.length = 1 then 10
          else if weak.length = 2 then 5 else 0))
  let score := score +
    (if pyTruthyStr cipher.error then 0
     else (if pyTruthyBool cipher.strong_cipher then 15
           else if 128 ≤ cipher.bits.getD 0 then 10
           else if 64 ≤ cipher.bits.getD 0 then 5 else 0)
        + (if (cipher.weak_ciphers.getD []).isEmpty then 5 else 0))
  min score 100

/- One value of `security_analysis['present']` as read by
`HeadersScanner._calculate_headers_score`. -/
structure PresentHeaderInfo where
  score : ℤ := 0
  strength : Option String := none
deriving DecidableEq, Repr

/- One value of `security_analysis['missing']` as read by
`HeadersScanner._calculate_headers_score`. -/
structure MissingHeaderScoreInfo where
  required : Bool := false
  score_weight : ℤ := 0
deriving DecidableEq, Repr

/- The `security_analysis` argument of
`HeadersScanner._calculate_headers_score`; the three keys are always present
at the call site, so they are plain fields. -/
structure HeadersSecurityAnalysis where
  present : List (String × PresentHeaderInfo) := []
  missing : List (String × MissingHeaderScoreInfo) := []
  incorrect : List String := []
deriving DecidableEq, Repr

/- The `dangerous_analysis` argument (its `count` key is always present). -/
structure DangerousAnalysis where
  count : ℤ := 0
deriving DecidableEq, Repr

/- The `https_analysis` argument, accessed through `.get`. -/
structure HttpsAnalysis where
  http_to_https_redirect : Option Bool := none
  permanent : Option Bool := none
deriving DecidableEq, Repr

/- Model of `HeadersScanner._calculate_headers_score` (`headers_scanner.py` lines
356-390).  `int(header_score * 1.1)` / `int(header_score * 0.7)` are
`pyint` over exact rationals; `info['score_weight'] // 2` is Python floor
division `Int.fdiv`. -/
def calculate_headers_score (sec : HeadersSecurityAnalysis)
    (dang : DangerousAnalysis) (https : HttpsAnalysis) : ℤ :=
  let score : ℤ := sec.present.foldl
    (fun s p =>
      let header_score : ℤ := p.2.score
      let header_score : ℤ :=
        if p.2.strength = some "excellent" then pyint ((header_score : ℚ) * 1.1)
        else if p.2.strength = some "warning" then pyint ((header_score : ℚ) * 0.7)
        else header_score
      s + header_score) 0
  let score := sec.missing.foldl
    (fun s m => if m.2.required then s - Int.fdiv m.2.score_weight 2 else s) score
  let score := sec.incorrect.foldl (fun s _ => s - 10) score
  let score := score - dang.count * 5
  let score := score +
    (if pyTruthyBool https.http_to_https_redirect then
       5 + (if pyTruthyBool https.permanent then 5 else 0)
     else 0)
  max 0 (min score 100)

/- Model of `CMSScanner._calculate_cms_score` (`cms_scanner.py` lines 484-518).
The `found` keys are always present in the dicts built by the scanner;
`plugins.get('outdated', [])` / `plugins.get('vulnerable', [])` use `.get`. -/
def calculate_cms_score (cms_info : CmsDict) (vulns : VulnsDict)
    (exposed : ExposedDict) (plugins : PluginsDict) : ℤ :=
  let score : ℤ := 100
  let score := (vulns.found.getD []).foldl
    (fun s v =>
      if v.severity = "critical" then s - 30
      else if v.severity = "high" then s - 20
      else if v.severity = "medium" then s - 10
      else s - 5) score
  let score := (exposed.found.getD []).foldl
    (fun s f =>
      if f.risk = "high" then s - 15
      else if f.risk = "medium" then s - 10
      else s - 5) score
  let score := score - ((plugins.outdated.getD []).length : ℤ) * 5
  let score := score - ((plugins.vulnerable.getD []).length : ℤ) * 15
  let score := score +
    (if pyTruthyBool cms_info.detected && pyTruthyStr cms_info.version then 10
     else 0)
  max 0 (min score 100)

/- The `analysis` argument of `PortScanner._calculate_port_score`
(`port_scanner.py` lines 259-263): the keys are always present. -/
structure PortAnalysis where
  open_ports : List PortInfoDict := []
  dangerous_ports : List PortInfoDict := []
  secure_ports : List PortInfoDict := []
deriving DecidableEq, Repr

/- Model of `PortScanner._calculate_port_score` (`port_scanner.py` lines 265-294).
`port_info["risk"]` is always set on dangerous entries; absence is modelled
as the empty string (which falls to the `else` penalty branch). -/
def calculate_port_score (analysis : PortAnalysis) : ℤ :=
  let score : ℤ := 100
  let score := analysis.dangerous_ports.foldl
    (fun s p =>
      let risk := p.risk.getD ""
      if risk = "critical" then s - 25
      else if risk = "high" then s - 15
      else if risk = "medium" then s - 10
      else s - 5) score
  let score :=
    if 10 < analysis.open_ports.length then score - 10
    else if 5 < analysis.open_ports.length then score - 5
    else score
  let score :=
    if analysis.dangerous_ports.isEmpty && analysis.open_ports.length ≤ 3 then
      score + 10
    else score
  max 0 (min score 100)

/- Model of `DDoSScanner._calculate_protection_score`
(`ddos_scanner_fixed.py` lines 191-213). -/
def calculate_protection_score (dns : DnsDict) (cdn : CdnDict)
    (rate : RateLimitDict) : ℤ :=
  let score : ℤ := 0
  let score := score +
    (if pyTruthyBool cdn.detected then
       let protection_level := cdn.protection_level.getD "medium"
       if protection_level = "excellent" then 50
       else if protection_level = "good" then 35
       else 20
     else 0)
  let score := score + (if (dns.single_ip.getD true) = false then 25 else 0)
  let score := score + (if pyTruthyBool rate.detected then 25 else 0)
  max 0 (min score 100)

/- The HTTP branch of `SSLScanner.scan` (`ssl_scanner.py` line 57): a plain
HTTP target scores `20` when it redirects to HTTPS and `0` otherwise. -/
def ssl_http_branch_score (https_redirect : Bool) : ℤ :=
  if https_redirect then 20 else 0

/- Model of `list(dict.fromkeys(xs))`: deduplication by exact string equality keeping
the first occurrence, preserving first-seen order (`scoring.py` line 99).
`seen` accumulates the keys already emitted. -/
def pyDedupAux (seen : List String) : List String → List String
  | [] => []
  | a :: as =>
      if a ∈ seen then pyDedupAux seen as
      else a :: pyDedupAux (a :: seen) as

/- Deduplication with first-seen order, starting from no seen keys. -/
def pyDedup (l : List String) : List String := pyDedupAux [] l

/- Model of `SecurityScorer._get_ssl_recommendations` (`scoring.py` lines 106-129). -/
def get_ssl_recommendations (r : ResultDict) : List String :=
  if pyTruthyStr r.error then ["Исправьте проблемы с SSL конфигурацией"]
  else if r.status = some "critical" then
    (if r.protocol = some "HTTP" then
       ["Установите SSL сертификат и включите HTTPS",
        "Настройте автоматическое перенаправление с HTTP на HTTPS"]
     else ["Срочно обновите SSL конфигурацию"])
  else if r.status = some "warning" then
    (if pyTruthyBool (r.certificate.getD {}).expires_soon then
       ["Продлите SSL сертификат до истечения срока действия"]
     else [])
    ++ (if pyTruthyList (r.protocols.getD {}).weak_protocols then
          ["Отключите устаревшие протоколы TLS/SSL"]
        else [])
  else []

/- The per-port branch of `SecurityScorer._get_port_recommendations`
(`scoring.py` lines 140-153).  `port_info.get('port')` may be absent
(Python `None`), in which case every equality/membership test is false and
the f-string renders it as `None`. -/
def port_recommendation (p : PortInfoDict) : String :=
  let service := p.service.getD "unknown"
  if p.port = some 21 then
    "Замените FTP на SFTP или FTPS для безопасной передачи файлов"
  else if p.port = some 23 then
    "Замените Telnet на SSH для безопасного удаленного доступа"
  else if p.port = some 3389 then
    "Ограничьте доступ к RDP через VPN"
  else if p.port = some 3306 ∨ p.port = some 5432 ∨ p.port = some 1433 then
    "Закройте прямой доступ к базе данных (" ++ service ++ ") из интернета"
  else
    "Закройте неиспользуемый порт "
      ++ (match p.port with | some n => toString n | none => "None")
      ++ " (" ++ service ++ ")"

/- Model of `SecurityScorer._get_port_recommendations` (`scoring.py` lines 131-158):
the first 3 dangerous ports produce one recommendation each; more than 3
dangerous ports add one summary line with the count of the remaining ones. -/
def get_port_recommendations (r : ResultDict) : List String :=
  if pyTruthyStr r.error then []
  else
    let dangerous_ports := r.dangerous_ports.getD []
    (dangerous_ports.take 3).map port_recommendation
    ++ (if 3 < dangerous_ports.length then
          ["Проверьте и закройте остальные " ++ toString (dangerous_ports.length - 3)
            ++ " небезопасных портов"]
        else [])

/- The priority header keys of `SecurityScorer._get_header_recommendations`
(`scoring.py` line 171). -/
def priority_headers : List String :=
  ["strict-transport-security", "content-security-policy", "x-frame-options"]

/- Model of `SecurityScorer._get_header_recommendations` (`scoring.py` lines 160-183). -/
def get_header_recommendations (r : ResultDict) : List String :=
  if pyTruthyStr r.error then []
  else
    let missing := (r.security_headers.getD {}).missing.getD []
    (priority_headers.filterMap (fun h =>
      match missing.lookup h with
      | some info => some ("Добавьте заголовок " ++ info.name.getD h)
      | none => none))
    ++ (if pyTruthyList (r.dangerous_headers.getD {}).found then
          ["Скройте информационные заголовки сервера (Server, X-Powered-By)"]
        else [])

/- Model of `SecurityScorer._get_cms_recommendations` (`scoring.py` lines 185-216). -/
def get_cms_recommendations (r : ResultDict) : List String :=
  if pyTruthyStr r.error then []
  else
    let cms_info := r.cms.getD {}
    let vulnerabilities := r.vulnerabilities.getD {}
    if pyTruthyBool cms_info.detected then
      let cms_name := cms_info.name.getD "CMS"
      (if pyTruthyList vulnerabilities.found then
         ["Срочно обновите " ++ cms_name ++ " до последней версии"]
         ++ (if vulnerabilities.risk_level.getD "medium" = "critical" then
               ["Найдены критические уязвимости - примените патчи немедленно"]
             else [])
       else [])
      ++ (if pyTruthyList (r.exposed_files.getD {}).found then
            ["Ограничьте доступ к системным файлам CMS"]
          else [])
      ++ (if pyTruthyList (r.plugins.getD {}).outdated then
            ["Обновите устаревшие плагины"]
          else [])
    else []

/- Model of `SecurityScorer._get_ddos_recommendations` (`scoring.py` lines 218-238). -/
def get_ddos_recommendations (r : ResultDict) : List String :=
  if pyTruthyStr r.error then []
  else
    (if !pyTruthyBool (r.cdn_detection.getD {}).detected then
       ["Настройте CDN (например, Cloudflare) для защиты от DDoS атак"]
     else [])
    ++ (if !pyTruthyBool (r.rate_limiting.getD {}).detected then
          ["Настройте ограничение скорости запросов (rate limiting)"]
        else [])
    ++ (if pyTruthyBool (r.dns_info.getD {}).single_ip then
          ["Настройте балансировку нагрузки между несколькими серверами"]
        else [])

/- Model of `SecurityScorer._get_general_recommendations` (`scoring.py` lines 240-268).
Every value of the model's `scan_results` is a dict, so the
`isinstance(result, dict)` guard of the source is always true; error entries
are NOT skipped by this helper, matching the source. -/
def get_general_recommendations (sr : ScanResults) : List String :=
  let counts := allKinds.foldl
    (fun (a : ℤ × ℤ) k =>
      match sr k with
      | some r =>
          (a.1 + ((r.issues.getD []).length : ℤ),
           a.2 + (if r.status = some "critical" then 1 else 0))
      | none => a) (0, 0)
  (if 2 < counts.2 then ["Рекомендуется комплексный аудит безопасности"] else [])
  ++ (if 10 < counts.1 then
        ["Создайте план поэтапного устранения уязвимостей",
         "Настройте мониторинг безопасности"]
      else [])
  ++ ["Регулярно обновляйте программное обеспечение",
      "Используйте сильные пароли и двухфакторную аутентификацию"]

/- The recommendation list accumulated by
`SecurityScorer.generate_recommendations` before deduplication and
truncation (`scoring.py` lines 54-96): per-kind helper output in the fixed
order ssl, ports, headers, cms, ddos (each only when that key is present),
followed by the general recommendations. -/
def all_recommendations (sr : ScanResults) : List String :=
  (match sr .ssl with | some r => get_ssl_recommendations r | none => [])
  ++ (match sr .ports with | some r => get_port_recommendations r | none => [])
  ++ (match sr .headers with | some r => get_header_recommendations r | none => [])
  ++ (match sr .cms with | some r => get_cms_recommendations r | none => [])
  ++ (match sr .ddos with | some r => get_ddos_recommendations r | none => [])
  ++ get_general_recommendations sr

/- Model of `SecurityScorer.generate_recommendations` (`scoring.py` lines 52-104):
deduplicate keeping first-seen order, then truncate to at most 15 entries.
The `translations` argument is only read by the `except` fallback
(`generate_recommendations_fallback` below), which is unreachable in this
typed model. -/
def generate_recommendations (sr : ScanResults) (_tr : Translations) :
    List String :=
  (pyDedup (all_recommendations sr)).take 15

/- The `except` branch of `SecurityScorer.generate_recommendations`
(`scoring.py` lines 102-104): a single default recommendation. -/
def generate_recommendations_fallback (tr : Translations) : List String :=
  [tr.default_recommendation.getD
    "Обратитесь к специалисту по информационной безопасности"]

/- The observable surface of one target as seen by `CMSScanner._detect_cms`
(`cms_scanner.py` lines 214-284), abstracting the network and the regex
engine as capability oracles:
* `headerVal h`  — `headers[h]` of the fetched main page (`none` = absent);
* `search pat`   — `re.search(pat, content, re.IGNORECASE)` on the fetched
  markup: `none` = no match, `some g` = a match whose first capturing group
  is `g` (`none` inside when the pattern has no groups);
* `pathStatus p` — the status code of `client.get(urljoin(url, p))`, or
  `none` when that request raised (the `except: continue` branch). -/
structure Surface where
  headerVal : String → Option String
  search : String → Option (Option String)
  pathStatus : String → Option ℤ

/- One entry of `CMSScanner.self.cms_signatures` (`cms_scanner.py` 19-60). -/
structure CMSSig where
  key : String
  name : String
  paths : List String
  headers : List (String × String)
  meta : List String
  files : List String
  patterns : List String
deriving DecidableEq, Repr

/- Model of `CMSScanner.self.cms_signatures` in dict insertion order. -/
def cms_signatures : List CMSSig :=
  [{ key := "wordpress", name := "WordPress",
     paths := ["/wp-admin/", "/wp-content/", "/wp-includes/"],
     headers := [("x-powered-by", "wordpress")],
     meta := ["<meta name=\"generator\" content=\"WordPress ([0-9.]+)\""],
     files := ["/wp-config.php", "/readme.html"],
     patterns := ["/wp-content/themes/", "/wp-content/plugins/"] },
   { key := "drupal", name := "Drupal",
     paths := ["/user/login", "/admin/", "/sites/"],
     headers := [("x-drupal-cache", ""), ("x-generator", "drupal")],
     meta := ["<meta name=\"Generator\" content=\"Drupal ([0-9.]+)\""],
     files := ["/CHANGELOG.txt", "/install.php"],
     patterns := ["/sites/default/files/", "/modules/"] },
   { key := "joomla", name := "Joomla",
     paths := ["/administrator/", "/components/", "/modules/"],
     headers := [],
     meta := ["<meta name=\"generator\" content=\"Joomla! ([0-9.]+)\""],
     files := ["/configuration.php", "/htaccess.txt"],
     patterns := ["/media/system/", "/templates/"] },
   { key := "magento", name := "Magento",
     paths := ["/admin/", "/downloader/", "/app/"],
     headers := [],
     meta := [],
     files := ["/app/etc/config.xml", "/downloader/"],
     patterns := ["/skin/frontend/", "/media/catalog/"] },
   { key := "opencart", name := "OpenCart",
     paths := ["/admin/", "/catalog/", "/system/"],
     headers := [],
     meta := [],
     files := ["/config.php", "/admin/config.php"],
     patterns := ["/catalog/view/theme/"] }]

/- The header check of `_detect_cms` (`cms_scanner.py` lines 238-241): the
header is present and the signature value is empty, or is a lower-cased
substring of the lower-cased observed value. -/
def headerSignalMatches (s : Surface) (hv : String × String) : Bool :=
  match s.headerVal hv.1 with
  | some observed => hv.2.isEmpty || pySubstr (pyLower hv.2) (pyLower observed)
  | none => false

/- The per-candidate confidence/version accumulation of `_detect_cms`
(`cms_scanner.py` lines 234-263), in source order: headers (+20 each), meta
patterns (+30 each, also recording the captured version), content patterns
(+15 each), then at most the first 2 paths (+25 per status-200 response; a
request error contributes nothing). -/
def sigConfidence (s : Surface) (sig : CMSSig) : ℕ × Option String :=
  let c1 : ℕ := sig.headers.foldl
    (fun c hv => if headerSignalMatches s hv then c + 20 else c) 0
  let cv : ℕ × Option String := sig.meta.foldl
    (fun cv pat =>
      match s.search pat with
      | some g => (cv.1 + 30, g)
      | none => cv) (c1, none)
  let c3 : ℕ := sig.patterns.foldl
    (fun c pat => if (s.search pat).isSome then c + 15 else c) cv.1
  let c4 : ℕ := (sig.paths.take 2).foldl
    (fun c p =>
      match s.pathStatus p with
      | some st => if st = 200 then c + 25 else c
      | none => c) c3
  (c4, cv.2)

/- The `best_match` accumulator of `_detect_cms` (`cms_scanner.py` 231). -/
structure BestMatch where
  cms : Option String
  confidence : ℕ
  version : Option String
deriving DecidableEq, Repr

/- One step of the candidate loop (`cms_scanner.py` lines 265-270): the
candidate replaces the best match only on a strictly higher confidence. -/
def bestStep (s : Surface) (b : BestMatch) (sig : CMSSig) : BestMatch :=
  let cv := sigConfidence s sig
  if b.confidence < cv.1 then
    { cms := some sig.key, confidence := cv.1, version := cv.2 }
  else b

/- The full candidate loop of `_detect_cms` over the signature table. -/
def detect_best (s : Surface) : BestMatch :=
  cms_signatures.foldl (bestStep s) { cms := none, confidence := 0, version := none }

/- Model of `CMSScanner._detect_cms` (`cms_scanner.py` lines 214-284): the initial
`cms_results` dict is updated only when the best confidence strictly
exceeds 50; `name` is looked up from the signature table by the winning key. -/
def detect_cms (s : Surface) : CmsDict :=
  let best := detect_best s
  if 50 < best.confidence then
    { detected := some true
      type := best.cms
      name := (best.cms.bind fun k =>
        (cms_signatures.find? (fun g => g.key = k)).map (·.name))
      version := best.version
      confidence := some (best.confidence : ℤ) }
  else
    { detected := some false, type := none, name := none, version := none,
      confidence := some 0 }

/- Python `int(s)` digit-run parsing after the first character: digits,
with single underscores allowed between digits. -/
def pyDigitsAux : ℕ → List Char → Option ℕ
  | acc, [] => some acc
  | acc, '_' :: c :: rest =>
      if c.isDigit then pyDigitsAux (acc * 10 + (c.toNat - 48)) rest else none
  | acc, c :: rest =>
      if c.isDigit then pyDigitsAux (acc * 10 + (c.toNat - 48)) rest else none

/- Python `int(s)` on a (whitespace-stripped) unsigned digit string. -/
def pyDigits : List Char → Option ℕ
  | [] => none
  | c :: rest => if c.isDigit then pyDigitsAux (c.toNat - 48) rest else none

/- Python `int(s)` on the character list of a string: strip surrounding
whitespace, optional single sign, then ASCII digits (underscores allowed
between digits); `none` models the raised `ValueError`. -/
def pyIntOfChars (cs : List Char) : Option ℤ :=
  let l := ((cs.dropWhile Char.isWhitespace).reverse.dropWhile
    Char.isWhitespace).reverse
  match l with
  | '-' :: rest => (pyDigits rest).map (fun n => -(n : ℤ))
  | '+' :: rest => (pyDigits rest).map (fun n => (n : ℤ))
  | l => (pyDigits l).map (fun n => (n : ℤ))

/- Python `int(s)` on a string. -/
def pyIntOfString (s : String) : Option ℤ :=
  pyIntOfChars s.toList

/- Python `s.split(sep)` for a single-character separator, over character
lists (structural, so it evaluates by reduction); the empty string splits
to `[""]`, like Python. -/
def splitOnChar (sep : Char) : List Char → List (List Char)
  | [] => [[]]
  | a :: as =>
      if a = sep then [] :: splitOnChar sep as
      else
        match splitOnChar sep as with
        | h :: t => (a :: h) :: t
        | [] => [[a]]

/- Model of `[int(x) for x in version.split('.')]` (`cms_scanner.py` lines 332-333):
`none` models the `except` branch taken when any component fails to parse. -/
def parse_version (s : String) : Option (List ℤ) :=
  (splitOnChar '.' s.toList).mapM pyIntOfChars

/- Python list comparison `xs <= ys` on integer lists (lexicographic; a
proper prefix is smaller). -/
def pyListLE : List ℤ → List ℤ → Bool
  | [], _ => true
  | _ :: _, [] => false
  | a :: as, b :: bs =>
      if a < b then true
      else if b < a then false
      else pyListLE as bs

/- Model of `CMSScanner._is_vulnerable_version` (`cms_scanner.py` lines 329-342):
parse both versions, pad the shorter with trailing zeros, compare
lexicographically (inclusive); any parse failure yields `False`. -/
def is_vulnerable_version (current_version vulnerable_version : String) : Bool :=
  match parse_version current_version, parse_version vulnerable_version with
  | some current_parts, some vulnerable_parts =>
      let max_len := max current_parts.length vulnerable_parts.length
      pyListLE
        (current_parts ++ List.replicate (max_len - current_parts.length) 0)
        (vulnerable_parts ++ List.replicate (max_len - vulnerable_parts.length) 0)
  | _, _ => false

/- Model of `CMSScanner.self.known_vulnerabilities` (`cms_scanner.py` lines 63-78). -/
def known_vulnerabilities : List (String × List (String × List String)) :=
  [("wordpress",
    [("5.0", ["CVE-2019-8942", "CVE-2019-8943"]),
     ("4.9", ["CVE-2018-6389", "CVE-2017-17092"]),
     ("4.8", ["CVE-2017-14723", "CVE-2017-16510"])]),
   ("drupal",
    [("8.5", ["CVE-2018-7600", "CVE-2018-7602"]),
     ("7.58", ["CVE-2018-7600", "CVE-2017-6920"]),
     ("7.57", ["CVE-2017-6925", "CVE-2017-6924"])]),
   ("joomla",
    [("3.8", ["CVE-2018-6376", "CVE-2018-6377"]),
     ("3.7", ["CVE-2017-8917", "CVE-2017-7985"])])]

/- Model of `CMSScanner._get_cve_severity` (`cms_scanner.py` lines 344-353). -/
def get_cve_severity (cve : String) : String :=
  if cve = "CVE-2019-8942" then "high"
  else if cve = "CVE-2018-7600" then "critical"
  else if cve = "CVE-2018-6389" then "medium"
  else if cve = "CVE-2017-8917" then "high"
  else "medium"

/- Python `str(x)` for an optional string (`None` renders as `"None"`),
used by the f-string in `_check_vulnerabilities`. -/
def pyStrOfOpt (o : Option String) : String :=
  match o with
  | none => "None"
  | some s => s

/- Model of `CMSScanner._check_vulnerabilities` (`cms_scanner.py` lines 286-327):
guard on detection and version, look the CMS type up in the static table,
collect the CVEs of every applicable bucket, then derive count and overall
risk level. -/
def check_vulnerabilities (cms_info : CmsDict) : VulnsDict :=
  let base : VulnsDict :=
    { found := some [], count := some 0, risk_level := some "low" }
  if !(pyTruthyBool cms_info.detected) || !(pyTruthyStr cms_info.version) then
    base
  else
    let version := cms_info.version.getD ""
    match cms_info.type.bind (fun t => known_vulnerabilities.lookup t) with
    | none => base
    | some cms_vulns =>
        let found := cms_vulns.foldl
          (fun acc bucket =>
            if is_vulnerable_version version bucket.1 then
              acc ++ bucket.2.map (fun cve =>
                { id := cve
                  description := "Уязвимость в " ++ pyStrOfOpt cms_info.name
                    ++ " " ++ version
                  severity := get_cve_severity cve
                  affected_version := bucket.1 })
            else acc) ([] : List Vulnerability)
        let severities := found.map (·.severity)
        let risk_level :=
          if found.isEmpty then "low"
          else if "critical" ∈ severities then "critical"
          else if "high" ∈ severities then "high"
          else if "medium" ∈ severities then "medium"
          else "low"
        { found := some found, count := some (found.length : ℤ),
          risk_level := some risk_level }

/- The request body of `POST /api/scan` (`main.ScanRequest`). -/
structure ScanRequest where
  url : String
  scan_types : List String
  language : String := "ru"
deriving DecidableEq, Repr

/- The response of `main.start_scan`, without the fields produced by ambient
effects (`scan_id` from `uuid.uuid4()`, `created_at` from `datetime`). -/
structure ScanResponse where
  url : String
  score : ℤ
  status : String
  results : ScanResults
  recommendations : List String

/- The URL validation of `main.start_scan` (`main.py` lines 86-87): prefix
`https://` unless the URL already names a scheme. -/
def normalize_url (url : String) : String :=
  if url.startsWith "http://" || url.startsWith "https://" then url
  else "https://" ++ url

/- The orchestration core of `main.start_scan` (`main.py` lines 90-116):
one task per requested known scan type, each awaited under its own
`try/except`; an exception becomes `{"error": str(e)}` for that kind only.
`probes` is the outcome oracle for the five scanners (`Except.error e`
models a raised exception with message `str(e)`).  The resulting dict is
keyed by scan kind. -/
def run_scans (req : ScanRequest) (probes : ScanKind → Except String ResultDict) :
    ScanResults :=
  fun k =>
    if k.pyName ∈ req.scan_types then
      some (match probes k with
            | .ok r => r
            | .error e => { error := some e })
    else none

/- Model of `main.start_scan` (`main.py` lines 81-152): normalize the URL, run the
requested scans, aggregate the score, generate recommendations, and answer
with `status="completed"`.  Nothing in this model raises, so the
`HTTPException` branch is unreachable; in particular there is no special
handling for an empty `scan_types` list. -/
def start_scan (req : ScanRequest) (probes : ScanKind → Except String ResultDict)
    (tr : Translations) : ScanResponse :=
  let url := normalize_url req.url
  let scan_results := run_scans req probes
  let total_score := calculate_total_score scan_results
  let recommendations := generate_recommendations scan_results tr
  { url := url
    score := total_score
    status := "completed"
    results := scan_results
    recommendations := recommendations }

/- The predicate deciding whether a scan kind contributes to the aggregate
(`scoring.py` line 36): the key is present and its result carries no truthy
`'error'` value. -/
def isSuccessEntry (sr : ScanResults) (kw : ScanKind × ℚ) : Bool :=
  match sr kw.1 with
  | some r => !pyTruthyStr r.error
  | none => false

/- The weight entries that contribute to the aggregate. -/
def successWeights (sr : ScanResults) : List (ScanKind × ℚ) :=
  weights.filter (isSuccessEntry sr)

/- The score a contributing entry supplies: `scan_results[k].get('score', 0)`. -/
def scoreQ (sr : ScanResults) (k : ScanKind) : ℚ :=
  match sr k with
  | some r => (r.score.getD 0 : ℤ)
  | none => 0

/- Numerator of the spec's aggregate formula: Σ score_i * weight_i over
contributing entries. -/
def agg_numerator (sr : ScanResults) : ℚ :=
  ((successWeights sr).map (fun kw => scoreQ sr kw.1 * kw.2)).sum

/- Denominator of the spec's aggregate formula: Σ weight_i over
contributing entries. -/
def agg_denominator (sr : ScanResults) : ℚ :=
  ((successWeights sr).map (·.2)).sum

/- The data-model invariant on one probe slot: a Success result carries a
score in [0,100] (absent slots and Failure slots are unconstrained). -/
def scoreInRange (o : Option ResultDict) : Bool :=
  match o with
  | none => true
  | some r =>
      pyTruthyStr r.error ||
        (decide (0 ≤ r.score.getD 0) && decide (r.score.getD 0 ≤ 100))

/- Predicate "this probe slot is a failure": absent, or present with a truthy error. -/
def all_failed (o : Option ResultDict) : Bool :=
  match o with
  | none => true
  | some r => pyTruthyStr r.error

/- Confidence of one signature candidate against a surface. -/
def confOf (s : Surface) (g : CMSSig) : ℕ := (sigConfidence s g).1

/- Running maximum of candidate confidences, as accumulated left to right. -/
def runMax (s : Surface) (l : List CMSSig) (init : ℕ) : ℕ :=
  l.foldl (fun a g => max a (confOf s g)) init

/- The maximal candidate confidence over the whole signature table. -/
def maxConf (s : Surface) : ℕ := runMax s cms_signatures 0

/- A session in which all five probes were requested and every one of them
raised, leaving only `{"error": ...}` entries. -/
def claim1_allfail : ScanResults :=
  fun _ => some { error := some "connection refused" }

/- The spec's renormalization example: two Success probes with weights 0.25
(ssl) and 0.20 (ports), both scoring 80, the other three probes Failing. -/
def claim2_example : ScanResults := fun k =>
  match k with
  | .ssl => some { score := some 80 }
  | .ports => some { score := some 80 }
  | _ => some { error := some "probe failed" }

/- The `missing` security-header table of the C3 counterexample session. -/
def claim3_missing : List (String × MissingHeaderInfo) :=
  [("strict-transport-security", { name := some "Strict-Transport-Security" }),
   ("content-security-policy", { name := some "Content-Security-Policy" }),
   ("x-frame-options", { name := some "X-Frame-Options" })]

/- The dangerous-port table of the C3 counterexample session: four entries,
so the port helper emits three port lines plus the remaining-count line. -/
def claim3_ports : List PortInfoDict :=
  [{ port := some 21, service := some "ftp" },
   { port := some 23, service := some "telnet" },
   { port := some 3389, service := some "rdp" },
   { port := some 3306, service := some "mysql" }]

/- SSL slot of the C3 counterexample: critical plain-HTTP result. -/
def claim3_ssl : ResultDict :=
  { status := some "critical", protocol := some "HTTP",
    issues := some ["i1", "i2", "i3"] }

/- Ports slot of the C3 counterexample. -/
def claim3_ports_result : ResultDict :=
  { status := some "critical", dangerous_ports := some claim3_ports,
    issues := some ["i4", "i5", "i6"] }

/- Headers slot of the C3 counterexample: all three priority headers
missing, plus a dangerous header. -/
def claim3_headers : ResultDict :=
  { status := some "critical",
    security_headers := some { missing := some claim3_missing },
    dangerous_headers := some { found := some [("server", "nginx")] },
    issues := some ["i7", "i8", "i9"] }

/- CMS slot of the C3 counterexample: detected CMS with critical
vulnerabilities, exposed files and outdated plugins. -/
def claim3_cms : ResultDict :=
  { cms := some { detected := some true, name := some "WordPress" },
    vulnerabilities := some
      { found := some [{ id := "CVE-2017-14723", description := "d",
                         severity := "critical", affected_version := "4.8" }],
        risk_level := some "critical" },
    exposed_files := some
      { found := some [{ path := "/readme.html", risk := "medium" }] },
    plugins := some { outdated := some ["p"] },
    issues := some ["i10", "i11"] }

/- DDoS slot of the C3 counterexample: no CDN, no rate limiting, one IP. -/
def claim3_ddos : ResultDict :=
  { cdn_detection := some { detected := some false },
    rate_limiting := some { detected := some false },
    dns_info := some { single_ip := some true } }

/- A session producing 22 distinct recommendations (more than the cap of
15): 2 from ssl, 4 from ports, 4 from headers, 4 from cms, 3 from ddos and
5 general ones (three critical statuses, eleven issues). -/
def claim3_input : ScanResults := fun k =>
  match k with
  | .ssl => some claim3_ssl
  | .ports => some claim3_ports_result
  | .headers => some claim3_headers
  | .cms => some claim3_cms
  | .ddos => some claim3_ddos

/- A probe oracle in which every scanner returns an empty result dict. -/
def claim4_probes : ScanKind → Except String ResultDict :=
  fun _ => .ok {}

/- A surface on which only the WordPress signature fires: its sniffing
header, its generator meta tag (capturing version 4.8) and its first
well-known path; every other lookup misses. -/
def claim5_surface : Surface :=
  { headerVal := fun h => if h = "x-powered-by" then some "WordPress" else none
    search := fun pat =>
      if pat = "<meta name=\"generator\" content=\"WordPress ([0-9.]+)\"" then
        some (some "4.8")
      else none
    pathStatus := fun p => if p = "/wp-admin/" then some 200 else none }

/- A detected WordPress install whose reported version is the unparsable
string `latest`. -/
def claim6_info : CmsDict :=
  { detected := some true, type := some "wordpress", name := some "WordPress",
    version := some "latest", confidence := some 75 }

/- Request used by the C7 witness: ssl and ports probes requested. -/
def claim7_request : ScanRequest :=
  { url := "example.com", scan_types := ["ssl", "ports"] }

/- Probe oracle used by the C7 witness: ssl succeeds, ports raises. -/
def claim7_probes : ScanKind → Except String ResultDict :=
  fun k =>
    match k with
    | .ssl => .ok { score := some 90, status := some "good" }
    | .ports => .error "Connection timed out"
    | _ => .ok {}

/- Exact model of IEEE-754 binary64 ("double") arithmetic, used to settle
whether the float computation in `calculate_total_score` really equals the
exact-rational floor formula.  A float is a dyadic value `m * 2^e` (not
necessarily normalized; equality of value is what matters); every operation
rounds its exact result to 53 significant bits, round-to-nearest, ties to
even — exactly CPython's float semantics on these in-range values (no
overflow, underflow or NaN can occur for scores in [0,100] and the five
weights).  The model was cross-checked against CPython on the literals
0.25/0.2/0.1 and several hundred random score combinations. -/

/- Bit length of a natural number (fuel-based structural recursion, so it
evaluates by kernel reduction). -/
def bitsAux : ℕ → ℕ → ℕ
  | 0, _ => 0
  | fuel + 1, n => if n = 0 then 0 else bitsAux fuel (n / 2) + 1

/- Bit length of `n` (0 for 0). -/
def natBits (n : ℕ) : ℕ := bitsAux n n

/- A binary64 value `m * 2^e`. -/
structure F64 where
  m : ℤ
  e : ℤ
deriving DecidableEq, Repr

/- Round a positive mantissa (with a sticky bit standing for discarded
nonzero lower bits, only ever set when the mantissa is wider than 53 bits)
to 53 significant bits, round-to-nearest, ties to even. -/
def roundMantissa (n : ℕ) (sticky : Bool) (e : ℤ) : ℕ × ℤ :=
  let b := natBits n
  if b ≤ 53 then (n, e)
  else
    let k := b - 53
    let q := n / 2 ^ k
    let r := n % 2 ^ k
    let half := 2 ^ (k - 1)
    let roundUp := (half < r) || (r = half && (sticky || q % 2 = 1))
    (if roundUp then q + 1 else q, e + (k : ℤ))

/- Round a signed dyadic value to binary64. -/
def roundF (m : ℤ) (e : ℤ) (sticky : Bool) : F64 :=
  if m = 0 then ⟨0, 0⟩
  else if 0 ≤ m then
    let qe := roundMantissa m.toNat sticky e
    ⟨(qe.1 : ℤ), qe.2⟩
  else
    let qe := roundMantissa (-m).toNat sticky e
    ⟨-(qe.1 : ℤ), qe.2⟩

/- Python `float(z)` of an int. -/
def ofIntF (z : ℤ) : F64 := roundF z 0 false

/- Binary64 multiplication: round the exact product. -/
def mulF (a b : F64) : F64 := roundF (a.m * b.m) (a.e + b.e) false

/- Binary64 addition: align, add exactly, round. -/
def addF (a b : F64) : F64 :=
  let e := min a.e b.e
  roundF (a.m * 2 ^ (a.e - e).toNat + b.m * 2 ^ (b.e - e).toNat) e false

/- Binary64 division: scale the dividend by 64 guard bits beyond the
divisor width (so the integer quotient always has more than 53 bits), then
round with the remainder as sticky bit. -/
def divF (a b : F64) : F64 :=
  if a.m = 0 then ⟨0, 0⟩
  else
    let sgn : ℤ := if (decide (0 ≤ a.m)) = (decide (0 ≤ b.m)) then 1 else -1
    let n1 := a.m.natAbs
    let n2 := b.m.natAbs
    let s := 64 + natBits n2
    let nn := n1 * 2 ^ s
    let q := nn / n2
    let sticky := decide (nn % n2 ≠ 0)
    roundF (sgn * (q : ℤ)) (a.e - b.e - (s : ℤ)) sticky

/- Binary64 strict comparison by value. -/
def ltF (a b : F64) : Bool :=
  let e := min a.e b.e
  decide (a.m * 2 ^ (a.e - e).toNat < b.m * 2 ^ (b.e - e).toNat)

/- Python `int(x)` of a float: truncation toward zero. -/
def truncF (a : F64) : ℤ :=
  if 0 ≤ a.e then a.m * 2 ^ a.e.toNat
  else
    let d := 2 ^ (-a.e).toNat
    if 0 ≤ a.m then ((a.m.toNat / d : ℕ) : ℤ) else -((a.m.natAbs / d : ℕ) : ℤ)

/- The binary64 value of the literal `0.25` (exact). -/
def f64_quarter : F64 := divF (ofIntF 1) (ofIntF 4)

/- The binary64 value of the literal `0.2` (correctly rounded, like the
decimal parser: 3602879701896397 * 2^-54). -/
def f64_fifth : F64 := divF (ofIntF 1) (ofIntF 5)

/- The binary64 value of the literal `0.1`. -/
def f64_tenth : F64 := divF (ofIntF 1) (ofIntF 10)

/- Model of `SecurityScorer.self.weights` with its float values. -/
def weights_float : List (ScanKind × F64) :=
  [(.ssl, f64_quarter), (.ports, f64_fifth), (.headers, f64_quarter),
   (.cms, f64_fifth), (.ddos, f64_tenth)]

/- The accumulation step of `calculate_total_score` in float arithmetic. -/
def totalScoreStepFloat (sr : ScanResults) (a : F64 × F64)
    (kw : ScanKind × F64) : F64 × F64 :=
  match sr kw.1 with
  | some r =>
      if pyTruthyStr r.error then a
      else (addF a.1 (mulF (ofIntF (r.score.getD 0)) kw.2), addF a.2 kw.2)
  | none => a

/- Model of `SecurityScorer.calculate_total_score` with the source's actual
binary64 float arithmetic (the ℚ-valued `calculate_total_score` above is
the same control flow under exact real arithmetic). -/
def calculate_total_score_float (sr : ScanResults) : ℤ :=
  let acc := weights_float.foldl (totalScoreStepFloat sr) (⟨0, 0⟩, ⟨0, 0⟩)
  let final_score : ℤ :=
    if ltF ⟨0, 0⟩ acc.2 then truncF (divF acc.1 acc.2) else 0
  max 0 (min final_score 100)

/- A session with a single contributing probe: ports, Success, score 43. -/
def claim2_float_input : ScanResults := fun k =>
  match k with
  | .ports => some { score := some 43 }
  | _ => none

/- The final clamp `max(0, min(x, 100))` always lands in [0,100]. -/
theorem clamp_range (x : ℤ) : 0 ≤ max 0 (min x 100) ∧ max 0 (min x 100) ≤ 100 := by
  constructor
  · exact le_max_left 0 _
  · exact max_le (by norm_num) (min_le_right x 100)

/- The clamp is the identity on values already in [0,100]. -/
theorem clamp_eq_self {x : ℤ} (h0 : 0 ≤ x) (h1 : x ≤ 100) :
    max 0 (min x 100) = x := by
  omega

/- Model of `pyDedupAux` returns a duplicate-free list disjoint from `seen`. -/
theorem pyDedupAux_spec :
    ∀ (l seen : List String),
      (pyDedupAux seen l).Nodup ∧ ∀ x ∈ pyDedupAux seen l, x ∉ seen := by
  intro l
  induction l with
  | nil => intro seen; simp [pyDedupAux]
  | cons a as ih =>
      intro seen
      simp only [pyDedupAux]
      by_cases h : a ∈ seen
      · simp only [if_pos h]
        exact ih seen
      · simp only [if_neg h]
        obtain ⟨hn, hm⟩ := ih (a :: seen)
        refine ⟨List.nodup_cons.mpr ⟨fun ha => ?_, hn⟩, fun x hx => ?_⟩
        · exact hm a ha (List.mem_cons_self a seen)
        · rcases List.mem_cons.mp hx with rfl | hx'
          · exact h
          · exact fun hxs => hm x hx' (List.mem_cons_of_mem a hxs)

/- Deduplication yields a duplicate-free list. -/
theorem pyDedup_nodup (l : List String) : (pyDedup l).Nodup :=
  (pyDedupAux_spec l []).1

/- Deduplicating a nonempty list yields a nonempty list. -/
theorem pyDedup_ne_nil {l : List String} (h : l ≠ []) : pyDedup l ≠ [] := by
  cases l with
  | nil => exact absurd rfl h
  | cons a as => simp [pyDedup, pyDedupAux]

/- Model of `take n` of a nonempty list is nonempty for positive `n`. -/
theorem take_fifteen_ne_nil {l : List String} (h : l ≠ []) : l.take 15 ≠ [] := by
  cases l with
  | nil => exact absurd rfl h
  | cons a as => simp

/- A fold that adds `w` exactly when `p` holds counts the matches. -/
theorem foldl_add_if {α : Type} (p : α → Bool) (w : ℕ) :
    ∀ (l : List α) (c : ℕ),
      l.foldl (fun c x => if p x then c + w else c) c = c + w * l.countP p := by
  intro l
  induction l with
  | nil => intro c; simp
  | cons a t ih =>
      intro c
      rw [List.foldl_cons]
      by_cases h : p a = true
      · rw [if_pos h, ih, List.countP_cons, if_pos h]
        ring
      · rw [if_neg h, ih, List.countP_cons, if_neg h]
        simp

/- The meta-pattern loop of `sigConfidence` adds 30 per matching pattern. -/
theorem foldl_meta (s : Surface) :
    ∀ (l : List String) (cv : ℕ × Option String),
      (l.foldl (fun cv pat =>
          match s.search pat with
          | some g => (cv.1 + 30, g)
          | none => cv) cv).1
        = cv.1 + 30 * l.countP (fun pat => (s.search pat).isSome) := by
  intro l
  induction l with
  | nil => intro cv; simp
  | cons a t ih =>
      intro cv
      rw [List.foldl_cons]
      cases hs : s.search a with
      | none => rw [ih, List.countP_cons]; simp [hs]
      | some g => rw [ih, List.countP_cons]; simp [hs]; ring

/- The path loop of `sigConfidence` adds 25 per status-200 path. -/
theorem foldl_paths (s : Surface) :
    ∀ (l : List String) (c : ℕ),
      l.foldl (fun c p =>
          match s.pathStatus p with
          | some st => if st = 200 then c + 25 else c
          | none => c) c
        = c + 25 * l.countP (fun p => decide (s.pathStatus p = some 200)) := by
  intro l
  induction l with
  | nil => intro c; simp
  | cons a t ih =>
      intro c
      rw [List.foldl_cons, ih, List.countP_cons]
      cases hs : s.pathStatus a with
      | none => simp [hs]
      | some st =>
          by_cases h2 : st = 200
          · subst h2
            simp [hs]
            ring
          · simp [hs, h2]

/- The accumulation loop of `calculate_total_score` computes the two sums
of the spec's aggregate formula, restricted to contributing entries. -/
theorem totalScoreStep_foldl (sr : ScanResults) :
    ∀ (l : List (ScanKind × ℚ)) (a : ℚ × ℚ),
      l.foldl (totalScoreStep sr) a =
        (a.1 + ((l.filter (isSuccessEntry sr)).map
                  (fun kw => scoreQ sr kw.1 * kw.2)).sum,
         a.2 + ((l.filter (isSuccessEntry sr)).map (·.2)).sum) := by
  intro l
  induction l with
  | nil => intro a; simp
  | cons kw t ih =>
      intro a
      rw [List.foldl_cons, ih]
      cases hk : sr kw.1 with
      | none =>
          have hf : isSuccessEntry sr kw = false := by
            simp [isSuccessEntry, hk]
          have hstep : totalScoreStep sr a kw = a := by
            simp [totalScoreStep, hk]
          rw [hstep, List.filter_cons, if_neg (by simp [hf])]
      | some r =>
          cases he : pyTruthyStr r.error
          · have hf : isSuccessEntry sr kw = true := by
              simp [isSuccessEntry, hk, he]
            have hstep : totalScoreStep sr a kw =
                (a.1 + scoreQ sr kw.1 * kw.2, a.2 + kw.2) := by
              simp [totalScoreStep, hk, he, scoreQ]
            rw [hstep, List.filter_cons, if_pos (by simp [hf])]
            simp only [List.map_cons, List.sum_cons, Prod.mk.injEq]
            constructor <;> ring
          · have hf : isSuccessEntry sr kw = false := by
              simp [isSuccessEntry, hk, he]
            have hstep : totalScoreStep sr a kw = a := by
              simp [totalScoreStep, hk, he]
            rw [hstep, List.filter_cons, if_neg (by simp [hf])]

/- Every configured weight is strictly positive. -/
theorem weights_pos : ∀ kw ∈ weights, (0 : ℚ) < kw.2 := by
  intro kw hkw
  simp only [weights, List.mem_cons, List.not_mem_nil, or_false] at hkw
  rcases hkw with rfl | rfl | rfl | rfl | rfl <;> norm_num

/- Contributing entries of a score-invariant-respecting session carry a
score between 0 and 100. -/
theorem scoreQ_bounds (sr : ScanResults) (h : ∀ k, scoreInRange (sr k) = true) :
    ∀ kw ∈ successWeights sr, 0 ≤ scoreQ sr kw.1 ∧ scoreQ sr kw.1 ≤ 100 := by
  intro kw hkw
  have hp := (List.mem_filter.mp hkw).2
  have hk := h kw.1
  cases hsk : sr kw.1 with
  | none => simp [isSuccessEntry, hsk] at hp
  | some r =>
      simp only [isSuccessEntry, hsk] at hp
      simp only [scoreInRange, hsk] at hk
      have he : pyTruthyStr r.error = false := by
        cases hq : pyTruthyStr r.error
        · rfl
        · simp [hq] at hp
      rw [he] at hk
      simp only [Bool.false_or, Bool.and_eq_true, decide_eq_true_eq] at hk
      simp only [scoreQ, hsk]
      refine ⟨?_, ?_⟩
      · exact_mod_cast hk.1
      · exact_mod_cast hk.2

/- Under the score invariant, the aggregate numerator is nonnegative. -/
theorem agg_numerator_nonneg (sr : ScanResults)
    (h : ∀ k, scoreInRange (sr k) = true) : 0 ≤ agg_numerator sr := by
  apply List.sum_nonneg
  intro x hx
  rcases List.mem_map.mp hx with ⟨kw, hkw, rfl⟩
  have hw : (0 : ℚ) < kw.2 := weights_pos kw (List.mem_filter.mp hkw).1
  have hs := (scoreQ_bounds sr h kw hkw).1
  positivity

/- Under the score invariant, the aggregate numerator is at most 100 times
the denominator. -/
theorem agg_numerator_le (sr : ScanResults)
    (h : ∀ k, scoreInRange (sr k) = true) :
    agg_numerator sr ≤ 100 * agg_denominator sr := by
  unfold agg_numerator agg_denominator
  rw [← List.sum_map_mul_left]
  apply List.sum_le_sum
  intro kw hkw
  have hw : (0 : ℚ) < kw.2 := weights_pos kw (List.mem_filter.mp hkw).1
  have hs := (scoreQ_bounds sr h kw hkw).2
  exact mul_le_mul_of_nonneg_right hs (le_of_lt hw)

/-- C1 (amended): in a session where every probe slot is a failure (absent
or carrying a truthy error), `calculate_total_score` returns 0 and the
aggregate security level derived by `get_security_summary` is the string
`"critical"`; the code defines no separate Error tier for the aggregate. -/
theorem claim_c1_all_failed_score_zero_level_critical (sr : ScanResults)
    (h : ∀ k, all_failed (sr k) = true) :
    calculate_total_score sr = 0 ∧
      (get_security_summary sr (calculate_total_score sr)).security_level
        = "critical" := by
  have hfail : ∀ kw ∈ weights, isSuccessEntry sr kw = false := by
    intro kw _
    have hk := h kw.1
    unfold all_failed at hk
    unfold isSuccessEntry
    cases hsk : sr kw.1 with
    | none => rfl
    | some r =>
        rw [hsk] at hk
        simpa using hk
  have hempty : weights.filter (isSuccessEntry sr) = [] := by
    rw [List.filter_eq_nil_iff]
    intro kw hkw
    simp [hfail kw hkw]
  have hscore : calculate_total_score sr = 0 := by
    unfold calculate_total_score
    rw [totalScoreStep_foldl sr weights (0, 0)]
    rw [hempty]
    norm_num
  refine ⟨hscore, ?_⟩
  rw [hscore]
  rfl

/-- C1 witness: the amended statement holds on the concrete all-failure
session `claim1_allfail`. -/
theorem claim_c1_witness :
    calculate_total_score claim1_allfail = 0 ∧
      (get_security_summary claim1_allfail
        (calculate_total_score claim1_allfail)).security_level = "critical" :=
  claim_c1_all_failed_score_zero_level_critical claim1_allfail (by decide)

/-- C1 counterexample: on the all-failure session the aggregate score is 0,
but the aggregate tier is the ordinary `"critical"` level, not a distinct
`"error"` state — no entry of the level table is named `"error"`, so the
claimed Error tier for the aggregate does not exist in the code. -/
theorem claim_c1_counterexample :
    calculate_total_score claim1_allfail = 0 ∧
      (get_security_summary claim1_allfail 0).security_level = "critical" ∧
      (get_security_summary claim1_allfail 0).security_level ≠ "error" ∧
      (security_levels_sorted.map Prod.fst).contains "error" = false := by
  decide

/-- C2 (amended): under exact real arithmetic — the program's float
arithmetic idealized as ℚ — the aggregate of every session satisfying the
data-model score invariant equals the floor of (Σ score·weight)/(Σ weight)
over the present non-error results when at least one such result
contributes, and 0 otherwise; failure entries contribute to neither sum.
With the program's actual binary64 rounding the result can fall one below
this floor (see the counterexample), though it does reach exactly 80 on the
spec's two-probe 80/80 example. -/
theorem claim_c2_weighted_renormalized_floor (sr : ScanResults)
    (h : ∀ k, scoreInRange (sr k) = true) :
    calculate_total_score sr =
      if 0 < agg_denominator sr
      then ⌊agg_numerator sr / agg_denominator sr⌋
      else 0 := by
  unfold calculate_total_score
  rw [totalScoreStep_foldl sr weights (0, 0)]
  simp only [zero_add]
  have hnum : ((weights.filter (isSuccessEntry sr)).map
      (fun kw => scoreQ sr kw.1 * kw.2)).sum = agg_numerator sr := rfl
  have hden : ((weights.filter (isSuccessEntry sr)).map (·.2)).sum
      = agg_denominator sr := rfl
  rw [hnum, hden]
  by_cases hpos : 0 < agg_denominator sr
  · rw [if_pos hpos, if_pos hpos]
    have h0 : 0 ≤ agg_numerator sr / agg_denominator sr :=
      div_nonneg (agg_numerator_nonneg sr h) (le_of_lt hpos)
    have h100 : agg_numerator sr / agg_denominator sr ≤ 100 := by
      rw [div_le_iff₀ hpos]
      calc agg_numerator sr ≤ 100 * agg_denominator sr := agg_numerator_le sr h
        _ = 100 * agg_denominator sr := rfl
    have hpy : pyint (agg_numerator sr / agg_denominator sr)
        = ⌊agg_numerator sr / agg_denominator sr⌋ := by
      unfold pyint
      rw [if_pos h0]
    rw [hpy]
    have hf0 : (0 : ℤ) ≤ ⌊agg_numerator sr / agg_denominator sr⌋ :=
      Int.le_floor.mpr (by exact_mod_cast h0)
    have hf100 : ⌊agg_numerator sr / agg_denominator sr⌋ ≤ 100 := by
      calc ⌊agg_numerator sr / agg_denominator sr⌋
          ≤ ⌊(100 : ℚ)⌋ := Int.floor_le_floor h100
        _ = 100 := by norm_num
    exact clamp_eq_self hf0 hf100
  · rw [if_neg hpos, if_neg hpos]
    norm_num

/-- C2 witness: on the spec's renormalization example (ssl and ports both
Success with score 80, the other three Failing) the formula applies and the
aggregate is exactly 80. -/
theorem claim_c2_witness :
    calculate_total_score claim2_example = 80 := by
  rw [claim_c2_weighted_renormalized_floor claim2_example (by decide)]
  have hsw : successWeights claim2_example =
      [(.ssl, 0.25), (.ports, 0.20)] := rfl
  have hden : agg_denominator claim2_example = 9 / 20 := by
    unfold agg_denominator
    rw [hsw]
    norm_num
  have hnum : agg_numerator claim2_example = 36 := by
    unfold agg_numerator
    rw [hsw]
    simp only [List.map_cons, List.map_nil, List.sum_cons, List.sum_nil]
    norm_num [scoreQ, claim2_example]
  rw [hden, hnum, if_pos (by norm_num)]
  norm_num

/-- C3 (amended): the recommendation list is deduplicated by exact string
equality preserving first-seen order and truncated to at most 15 entries;
the returned list is an initial segment of the deduplicated list, so no
summary line replaces the 15th slot. -/
theorem claim_c3_dedup_and_cap (sr : ScanResults) (tr : Translations) :
    (generate_recommendations sr tr).Nodup ∧
    (generate_recommendations sr tr).length ≤ 15 ∧
    ∃ rest, pyDedup (all_recommendations sr)
        = generate_recommendations sr tr ++ rest := by
  refine ⟨?_, ?_, ?_⟩
  · exact List.Nodup.sublist (List.take_sublist _ _)
      (pyDedup_nodup (all_recommendations sr))
  · unfold generate_recommendations
    rw [List.length_take]
    exact min_le_left _ _
  · exact ⟨(pyDedup (all_recommendations sr)).drop 15,
      (List.take_append_drop 15 _).symm⟩

/-- C3 counterexample: the session `claim3_input` produces 22 distinct
recommendations; the returned list has the full 15 entries and its 15th
entry is the ordinary 15th distinct recommendation (the CDN advice, itself
one of the produced items), not a summary line stating the count of the 7
omitted items — the overflow is dropped silently. -/
theorem claim_c3_counterexample :
    15 < (pyDedup (all_recommendations claim3_input)).length ∧
    (generate_recommendations claim3_input {}).length = 15 ∧
    (generate_recommendations claim3_input {})[14]? =
      some "Настройте CDN (например, Cloudflare) для защиты от DDoS атак" ∧
    (pyDedup (all_recommendations claim3_input))[14]? =
      some "Настройте CDN (например, Cloudflare) для защиты от DDoS атак" ∧
    "Настройте CDN (например, Cloudflare) для защиты от DDoS атак"
      ∈ all_recommendations claim3_input := by
  decide

/-- C4 (amended): a `start_scan` call with an empty requested-probe list
does not fail: it completes normally with status `"completed"`, an empty
result mapping and aggregate score 0, for every probe oracle. -/
theorem claim_c4_empty_request_completes (url lang : String)
    (probes : ScanKind → Except String ResultDict) (tr : Translations) :
    (start_scan { url := url, scan_types := [], language := lang } probes
        tr).status = "completed" ∧
    (∀ k, (start_scan { url := url, scan_types := [], language := lang }
        probes tr).results k = none) ∧
    (start_scan { url := url, scan_types := [], language := lang } probes
        tr).score = 0 := by
  have hrs : run_scans { url := url, scan_types := [], language := lang }
      probes = (fun _ => none) := by
    funext k
    unfold run_scans
    rw [if_neg (List.not_mem_nil _)]
  refine ⟨rfl, fun k => ?_, ?_⟩
  · show run_scans { url := url, scan_types := [], language := lang } probes k
        = none
    rw [hrs]
  · show calculate_total_score
        (run_scans { url := url, scan_types := [], language := lang } probes)
        = 0
    rw [hrs]
    unfold calculate_total_score
    rw [totalScoreStep_foldl]
    norm_num
    rfl

/-- C4 counterexample: a concrete call with an empty probe set returns a
completed assessment (status `"completed"`, score 0, empty result mapping,
and a nonempty recommendation list), instead of failing as the claim
demands. -/
theorem claim_c4_counterexample :
    (start_scan { url := "example.com", scan_types := [] } claim4_probes
        {}).status = "completed" ∧
    (start_scan { url := "example.com", scan_types := [] } claim4_probes
        {}).score = 0 ∧
    (allKinds.all (fun k =>
      ((start_scan { url := "example.com", scan_types := [] } claim4_probes
        {}).results k).isNone) = true) ∧
    (start_scan { url := "example.com", scan_types := [] } claim4_probes
        {}).recommendations ≠ [] := by
  refine ⟨rfl, by decide, by decide, by decide⟩

/-- C7: the result mapping of `start_scan` is keyed by exactly the
requested probe kinds (a slot is absent iff its kind was not requested);
a probe that completes contributes its own result and a probe that raises
contributes a `{"error": reason}` entry for its own kind only, with every
other requested slot still present and unaffected. -/
theorem claim_c7_keys_and_isolation (req : ScanRequest)
    (probes : ScanKind → Except String ResultDict) (tr : Translations)
    (k : ScanKind) :
    ((start_scan req probes tr).results k = none ↔
        k.pyName ∉ req.scan_types) ∧
    (∀ r, probes k = .ok r → k.pyName ∈ req.scan_types →
        (start_scan req probes tr).results k = some r) ∧
    (∀ e, probes k = .error e → k.pyName ∈ req.scan_types →
        (start_scan req probes tr).results k = some { error := some e }) := by
  have hres : (start_scan req probes tr).results = run_scans req probes := rfl
  rw [hres]
  unfold run_scans
  by_cases hm : k.pyName ∈ req.scan_types
  · rw [if_pos hm]
    refine ⟨⟨fun h => ?_, fun h => absurd hm h⟩, fun r hr _ => ?_, fun e he _ => ?_⟩
    · exact Option.noConfusion h
    · rw [hr]
    · rw [he]
  · rw [if_neg hm]
    exact ⟨⟨fun _ => hm, fun _ => rfl⟩,
      fun r _ hmem => absurd hmem hm,
      fun e _ hmem => absurd hmem hm⟩

/-- C7 witness: with ssl and ports requested, ssl succeeding and ports
raising, the ports slot is the error entry produced from the exception
message. -/
theorem claim_c7_witness :
    (start_scan claim7_request claim7_probes {}).results .ports =
      some { error := some "Connection timed out" } :=
  (claim_c7_keys_and_isolation claim7_request claim7_probes {} .ports).2.2
    "Connection timed out" rfl (by decide)

/-- C10: for every session (including the empty one and all-error ones) the
recommendation generator returns a nonempty list — the two always-applicable
general recommendations are appended on every pass — and the exception
fallback is a single default recommendation. -/
theorem claim_c10_nonempty_and_general (sr : ScanResults) (tr : Translations) :
    generate_recommendations sr tr ≠ [] ∧
    "Регулярно обновляйте программное обеспечение"
      ∈ all_recommendations sr ∧
    "Используйте сильные пароли и двухфакторную аутентификацию"
      ∈ all_recommendations sr ∧
    (generate_recommendations_fallback tr).length = 1 := by
  have hg1 : "Регулярно обновляйте программное обеспечение"
      ∈ get_general_recommendations sr := by
    unfold get_general_recommendations
    exact List.mem_append_right _ (by simp)
  have hg2 : "Используйте сильные пароли и двухфакторную аутентификацию"
      ∈ get_general_recommendations sr := by
    unfold get_general_recommendations
    exact List.mem_append_right _ (by simp)
  have hm1 : "Регулярно обновляйте программное обеспечение"
      ∈ all_recommendations sr := by
    unfold all_recommendations
    exact List.mem_append_right _ hg1
  have hm2 : "Используйте сильные пароли и двухфакторную аутентификацию"
      ∈ all_recommendations sr := by
    unfold all_recommendations
    exact List.mem_append_right _ hg2
  refine ⟨?_, hm1, hm2, rfl⟩
  unfold generate_recommendations
  exact take_fifteen_ne_nil (pyDedup_ne_nil (List.ne_nil_of_mem hm1))

/-- C8: every per-probe score calculator and the aggregate stay inside
[0,100] on every input: `calculate_total_score`, the headers, cms, ports
and ddos calculators clamp with `max(0, min(score, 100))`; the ssl
calculator starts from 20 base points, only ever adds, and caps with
`min(score, 100)`; the plain-HTTP ssl branch scores 20 or 0. -/
theorem claim_c8_scores_within_bounds :
    (∀ sr : ScanResults,
      0 ≤ calculate_total_score sr ∧ calculate_total_score sr ≤ 100) ∧
    (∀ (cert : CertificateDict) (proto : ProtocolsDict) (cipher : CipherDict),
      0 ≤ calculate_ssl_score cert proto cipher ∧
        calculate_ssl_score cert proto cipher ≤ 100) ∧
    (∀ (sec : HeadersSecurityAnalysis) (dang : DangerousAnalysis)
        (https : HttpsAnalysis),
      0 ≤ calculate_headers_score sec dang https ∧
        calculate_headers_score sec dang https ≤ 100) ∧
    (∀ (ci : CmsDict) (vd : VulnsDict) (ed : ExposedDict) (pd : PluginsDict),
      0 ≤ calculate_cms_score ci vd ed pd ∧
        calculate_cms_score ci vd ed pd ≤ 100) ∧
    (∀ pa : PortAnalysis,
      0 ≤ calculate_port_score pa ∧ calculate_port_score pa ≤ 100) ∧
    (∀ (dd : DnsDict) (cd : CdnDict) (rd : RateLimitDict),
      0 ≤ calculate_protection_score dd cd rd ∧
        calculate_protection_score dd cd rd ≤ 100) ∧
    (∀ b : Bool, 0 ≤ ssl_http_branch_score b ∧ ssl_http_branch_score b ≤ 100) := by
  refine ⟨fun sr => clamp_range _,
    fun cert proto cipher => ?_,
    fun sec dang https => clamp_range _,
    fun ci vd ed pd => clamp_range _,
    fun pa => clamp_range _,
    fun dd cd rd => clamp_range _,
    fun b => by cases b <;> simp [ssl_http_branch_score]⟩
  constructor
  · refine le_min ?_ (by norm_num)
    apply add_nonneg
    apply add_nonneg
    apply add_nonneg
    · norm_num
    all_goals first
      | (split_ifs <;> omega)
      | (dsimp only; split_ifs <;> omega)
  · exact min_le_right _ _

/-- C9: a candidate's confidence is exactly 20 per matched header signal,
30 per matched meta/version pattern, 15 per matched content pattern and 25
per reachable (status-200) path among the first two paths, summed; only the
first two paths are ever probed, and a path whose request failed (oracle
`none`) is not counted, contributing nothing. -/
theorem claim_c9_confidence_additive (s : Surface) (g : CMSSig) :
    confOf s g =
      20 * g.headers.countP (headerSignalMatches s)
      + 30 * g.meta.countP (fun pat => (s.search pat).isSome)
      + 15 * g.patterns.countP (fun pat => (s.search pat).isSome)
      + 25 * (g.paths.take 2).countP
          (fun p => decide (s.pathStatus p = some 200)) ∧
    (g.paths.take 2).length ≤ 2 := by
  constructor
  · unfold confOf sigConfidence
    dsimp only
    rw [foldl_add_if (headerSignalMatches s) 20 g.headers 0,
      foldl_meta s g.meta, foldl_add_if (fun pat => (s.search pat).isSome) 15,
      foldl_paths s (g.paths.take 2)]
    omega
  · rw [List.length_take]
    exact min_le_left _ _

/- Model of `runMax` over a cons steps the accumulator by `max`. -/
theorem runMax_cons (s : Surface) (g : CMSSig) (t : List CMSSig) (i : ℕ) :
    runMax s (g :: t) i = runMax s t (max i (confOf s g)) := rfl

/- The accumulator never decreases along `runMax`. -/
theorem le_runMax (s : Surface) :
    ∀ (l : List CMSSig) (i : ℕ), i ≤ runMax s l i := by
  intro l
  induction l with
  | nil => intro i; exact le_refl i
  | cons g t ih =>
      intro i
      rw [runMax_cons]
      calc i ≤ max i (confOf s g) := le_max_left _ _
        _ ≤ runMax s t (max i (confOf s g)) := ih _

/- Every listed candidate's confidence is bounded by the running maximum. -/
theorem elem_le_runMax (s : Surface) :
    ∀ (l : List CMSSig) (i : ℕ) (g : CMSSig),
      g ∈ l → confOf s g ≤ runMax s l i := by
  intro l
  induction l with
  | nil => intro i g hg; cases hg
  | cons a t ih =>
      intro i g hg
      rw [runMax_cons]
      rcases List.mem_cons.mp hg with rfl | hg'
      · calc confOf s g ≤ max i (confOf s g) := le_max_right _ _
          _ ≤ runMax s t (max i (confOf s g)) := le_runMax s t _
      · exact ih _ g hg'

/- Characterization of the strict-greater best-match loop: the final
confidence is the running maximum; when nothing beats the initial best the
accumulator is returned unchanged; when something does, the winner is the
first candidate (in enumeration order) whose confidence reaches the
maximum — so an exact tie keeps the earlier candidate. -/
theorem detect_fold (s : Surface) :
    ∀ (l : List CMSSig) (b : BestMatch),
      (l.foldl (bestStep s) b).confidence = runMax s l b.confidence ∧
      (runMax s l b.confidence ≤ b.confidence → l.foldl (bestStep s) b = b) ∧
      (b.confidence < runMax s l b.confidence →
        ∃ g, l.find? (fun g =>
              decide (runMax s l b.confidence ≤ confOf s g)) = some g ∧
          (l.foldl (bestStep s) b).cms = some g.key ∧
          (l.foldl (bestStep s) b).version = (sigConfidence s g).2 ∧
          confOf s g = runMax s l b.confidence) := by
  intro l
  induction l with
  | nil =>
      intro b
      exact ⟨rfl, fun _ => rfl, fun h => absurd h (lt_irrefl _)⟩
  | cons g t ih =>
      intro b
      have hstep : ∀ b' : BestMatch, bestStep s b' g =
          if b'.confidence < confOf s g then
            { cms := some g.key, confidence := confOf s g,
              version := (sigConfidence s g).2 }
          else b' := by
        intro b'
        rfl
      by_cases hgt : b.confidence < confOf s g
      · -- the head candidate replaces the initial best
        have hb' : bestStep s b g =
            { cms := some g.key, confidence := confOf s g,
              version := (sigConfidence s g).2 } := by
          rw [hstep, if_pos hgt]
        have hmax : max b.confidence (confOf s g) = confOf s g :=
          max_eq_right (le_of_lt hgt)
        obtain ⟨ih1, ih2, ih3⟩ :=
          ih { cms := some g.key, confidence := confOf s g,
               version := (sigConfidence s g).2 }
        rw [List.foldl_cons, hb', runMax_cons, hmax]
        refine ⟨ih1, fun hle => ?_, fun _ => ?_⟩
        · exfalso
          have := le_runMax s t (confOf s g)
          omega
        · by_cases hM : runMax s t (confOf s g) ≤ confOf s g
          · -- the winner is the head candidate itself
            have hMeq : runMax s t (confOf s g) = confOf s g :=
              le_antisymm hM (le_runMax s t (confOf s g))
            have hres := ih2 hM
            refine ⟨g, ?_, ?_, ?_, hMeq.symm⟩
            · rw [List.find?_cons_of_pos]
              simp [hMeq]
            · rw [hres]
            · rw [hres]
          · -- the winner lies in the tail
            push_neg at hM
            obtain ⟨g', hf, hc, hv, hcf⟩ := ih3 hM
            refine ⟨g', ?_, hc, hv, hcf⟩
            rw [List.find?_cons_of_neg]
            · exact hf
            · simp only [decide_eq_true_eq, not_le]
              omega
      · -- the head candidate does not replace the initial best
        push_neg at hgt
        have hb' : bestStep s b g = b := by
          rw [hstep, if_neg (not_lt.mpr hgt)]
        have hmax : max b.confidence (confOf s g) = b.confidence :=
          max_eq_left hgt
        obtain ⟨ih1, ih2, ih3⟩ := ih b
        rw [List.foldl_cons, hb', runMax_cons, hmax]
        refine ⟨ih1, ih2, fun hlt => ?_⟩
        obtain ⟨g', hf, hc, hv, hcf⟩ := ih3 hlt
        refine ⟨g', ?_, hc, hv, hcf⟩
        rw [List.find?_cons_of_neg]
        · exact hf
        · simp only [decide_eq_true_eq, not_le]
          omega

/-- C5: the fingerprint engine reports a detection iff the maximal summed
candidate confidence strictly exceeds 50, and the reported technology is
the first candidate in signature-table enumeration order whose confidence
reaches that maximum — an exact tie therefore keeps the earlier candidate. -/
theorem claim_c5_threshold_and_tiebreak (s : Surface) :
    ((detect_cms s).detected = some true ↔ 50 < maxConf s) ∧
    (50 < maxConf s →
      ∃ g, cms_signatures.find?
            (fun g => decide (maxConf s ≤ confOf s g)) = some g ∧
        (detect_cms s).type = some g.key ∧
        confOf s g = maxConf s ∧
        ∀ g' ∈ cms_signatures, confOf s g' ≤ maxConf s) := by
  obtain ⟨h1, _h2, h3⟩ :=
    detect_fold s cms_signatures { cms := none, confidence := 0, version := none }
  have hbestconf : (detect_best s).confidence = maxConf s := h1
  constructor
  · constructor
    · intro hd
      by_contra hnot
      push_neg at hnot
      have hcond : ¬ 50 < (detect_best s).confidence := by
        rw [hbestconf]
        omega
      unfold detect_cms at hd
      rw [if_neg hcond] at hd
      simp at hd
    · intro h50
      have hcond : 50 < (detect_best s).confidence := by
        rw [hbestconf]
        exact h50
      unfold detect_cms
      rw [if_pos hcond]
  · intro h50
    have hlt : ({ cms := none, confidence := 0, version := none } :
        BestMatch).confidence < runMax s cms_signatures 0 := by
      show 0 < maxConf s
      omega
    obtain ⟨g, hf, hc, _hv, hcf⟩ := h3 hlt
    have hcond : 50 < (detect_best s).confidence := by
      rw [hbestconf]
      exact h50
    refine ⟨g, hf, ?_, hcf, fun g' hg' => elem_le_runMax s _ 0 g' hg'⟩
    unfold detect_cms
    rw [if_pos hcond]
    exact hc

/-- C5 witness: on the concrete surface where only WordPress signals fire
(header 20, meta 30, reachable path 25 → confidence 75 > 50), the engine
reports a detection and names wordpress. -/
theorem claim_c5_witness :
    (detect_cms claim5_surface).detected = some true ∧
    (detect_cms claim5_surface).type = some "wordpress" := by
  constructor
  · exact (claim_c5_threshold_and_tiebreak claim5_surface).1.mpr (by decide)
  · obtain ⟨g, hf, ht, _, _⟩ :=
      (claim_c5_threshold_and_tiebreak claim5_surface).2 (by decide)
    have hkey : (cms_signatures.find? (fun g =>
        decide (maxConf claim5_surface ≤ confOf claim5_surface g))).map
          (·.key) = some "wordpress" := by rfl
    rw [hf] at hkey
    have h2 : some g.key = some "wordpress" := hkey
    rw [ht, Option.some.inj h2]

/- If the detected version fails to parse, no bucket ever applies. -/
theorem is_vulnerable_false_of_parse_none {cur : String}
    (h : parse_version cur = none) (b : String) :
    is_vulnerable_version cur b = false := by
  cases hv : parse_version b <;> simp [is_vulnerable_version, h, hv]

/- A guarded fold whose guard never fires returns its accumulator. -/
theorem foldl_if_false {α β : Type} (cond : β → Bool) (f : α → β → α) :
    ∀ (l : List β) (acc : α), (∀ b ∈ l, cond b = false) →
      l.foldl (fun acc b => if cond b then f acc b else acc) acc = acc := by
  intro l
  induction l with
  | nil => intro acc _; rfl
  | cons b t ih =>
      intro acc h
      rw [List.foldl_cons, if_neg (by simp [h b (List.mem_cons_self b t)])]
      exact ih acc (fun b' hb' => h b' (List.mem_cons_of_mem b hb'))

/-- C6: a vulnerability bucket applies iff both version strings parse as
dot-separated integer sequences and the detected sequence, padded with
trailing zeros to a common length, is lexicographically ≤ the bucket's
(inclusive); and whenever the detected version string does not parse, the
correlator reports an empty vulnerability list. -/
theorem claim_c6_version_correlation (cur vuln : String) (info : CmsDict)
    (hp : parse_version (info.version.getD "") = none) :
    (is_vulnerable_version cur vuln = true ↔
      ∃ c v, parse_version cur = some c ∧ parse_version vuln = some v ∧
        pyListLE (c ++ List.replicate (max c.length v.length - c.length) 0)
          (v ++ List.replicate (max c.length v.length - v.length) 0)
          = true) ∧
    (check_vulnerabilities info).found = some [] := by
  constructor
  · cases hc : parse_version cur with
    | none => cases hv : parse_version vuln <;> simp [is_vulnerable_version, hc, hv]
    | some c =>
        cases hv : parse_version vuln with
        | none => simp [is_vulnerable_version, hc, hv]
        | some v => simp [is_vulnerable_version, hc, hv]
  · unfold check_vulnerabilities
    by_cases hg : (!(pyTruthyBool info.detected) || !(pyTruthyStr info.version))
        = true
    · rw [if_pos hg]
    · rw [if_neg hg]
      cases hl : info.type.bind (fun t => known_vulnerabilities.lookup t) with
      | none => simp only [hl]
      | some cms_vulns =>
          simp only [hl]
          refine congrArg some (foldl_if_false _ _ cms_vulns [] ?_)
          intro b _
          exact is_vulnerable_false_of_parse_none hp b.1

/-- C6 witness: "4.8" matches bucket "4.8" inclusively, "4.9" does not
match bucket "4.8", and a detected WordPress at unparsable version
"latest" yields an empty vulnerability list. -/
theorem claim_c6_witness :
    is_vulnerable_version "4.8" "4.8" = true ∧
    is_vulnerable_version "4.9" "4.8" = false ∧
    parse_version "latest" = none ∧
    (check_vulnerabilities claim6_info).found = some [] :=
  ⟨by decide, by decide, by decide,
    (claim_c6_version_correlation "4.8" "4.8" claim6_info (by decide)).2⟩

set_option maxRecDepth 20000 in
/-- C2 counterexample: on the session whose only contributing probe is
ports with Success score 43, the program's binary64 float arithmetic gives
aggregate 42 — `int((43*0.2)/0.2)` truncates 42.99999999999999 — while the
claimed formula floor((43·0.2)/0.2) = 43 (and the exact-arithmetic model
agrees with 43), so the stated equality fails on the code as executed. -/
theorem claim_c2_counterexample :
    calculate_total_score_float claim2_float_input = 42 ∧
    calculate_total_score claim2_float_input = 43 ∧
    ⌊agg_numerator claim2_float_input / agg_denominator claim2_float_input⌋
      = 43 := by
  have hsw : successWeights claim2_float_input = [(.ports, 0.20)] := rfl
  have hden : agg_denominator claim2_float_input = 1 / 5 := by
    unfold agg_denominator
    rw [hsw]
    norm_num
  have hnum : agg_numerator claim2_float_input = 43 / 5 := by
    unfold agg_numerator
    rw [hsw]
    simp only [List.map_cons, List.map_nil, List.sum_cons, List.sum_nil]
    norm_num [scoreQ, claim2_float_input]
  refine ⟨by decide, ?_, ?_⟩
  · unfold calculate_total_score
    rw [totalScoreStep_foldl]
    simp only [zero_add]
    have h1 : ((weights.filter (isSuccessEntry claim2_float_input)).map
        (fun kw => scoreQ claim2_float_input kw.1 * kw.2)).sum
        = agg_numerator claim2_float_input := rfl
    have h2 : ((weights.filter (isSuccessEntry claim2_float_input)).map
        (·.2)).sum = agg_denominator claim2_float_input := rfl
    rw [h1, h2, hnum, hden, if_pos (by norm_num)]
    have hq : (43 / 5 : ℚ) / (1 / 5) = 43 := by norm_num
    rw [hq]
    norm_num [pyint]
  · rw [hnum, hden]
    norm_num
